import Mathlib

/-
Verification development for the SEO blog-article generation tool
(single-file Streamlit application, src/app.py).

The application text values (Python str, sequences of Unicode code points)
are modelled as lists of characters.  External effects (the Anthropic
generation service and the JSON decoder of the standard library) are
modelled as oracle parameters: a response oracle yields either a response
text or a failure (exception / empty content collapse to the same failure
value wherever the program treats them identically), and a parse oracle
yields either a typed value or a failure.  All other computation is
translated directly from the source.
-/

namespace SeoApp

/-- Program text: a Python string as its list of code points. -/
abbrev Text := List Char

/-- Coerce a Lean string literal to program text. -/
def txt (s : String) : Text := s.data

/-! ### Sentinel markers and sanitization (app.py lines 327-334, 413-421, 549-560, 621-629, 672-680) -/

/-- First sentinel marker checked by the source. -/
def marker1 : Text := txt "<search_reminders>"

/-- Closing form of the first sentinel marker. -/
def marker2 : Text := txt "</search_reminders>"

/-- Second sentinel marker checked by the source. -/
def marker3 : Text := txt "<automated_reminder_from_anthropic>"

/-- Closing form of the second sentinel marker. -/
def marker4 : Text := txt "</automated_reminder_from_anthropic>"

/-- Membership test for a pattern inside a text, Python `pat in t`. -/
def textContains (pat : Text) : Text → Bool
  | [] => pat.isEmpty
  | c :: rest => pat.isPrefixOf (c :: rest) || textContains pat rest

/-- Fuel-driven worker for `pyReplace`; fuel is at least the length of the
scanned text, so it never runs out on the intended calls. -/
def pyReplaceAux (pat rep : Text) : Nat → Text → Text
  | 0, l => l
  | _ + 1, [] => []
  | fuel + 1, c :: rest =>
    if pat.isPrefixOf (c :: rest) then
      rep ++ pyReplaceAux pat rep fuel ((c :: rest).drop pat.length)
    else
      c :: pyReplaceAux pat rep fuel rest

/-- Python `t.replace(pat, rep)` for a non-empty pattern: replaces all
non-overlapping occurrences scanning left to right, never rescanning
emitted output. -/
def pyReplace (t pat rep : Text) : Text := pyReplaceAux pat rep t.length t

/-- The guard condition of every sanitization block in the source:
the response text contains one of the two opening markers. -/
def sanitizeGuard (t : Text) : Bool := textContains marker1 t || textContains marker3 t

/-- The four sequential replacements performed inside the guarded
sanitization block, in source order. -/
def removeMarkers (t : Text) : Text :=
  pyReplace (pyReplace (pyReplace (pyReplace t marker1 []) marker2 []) marker3 []) marker4 []

/-- The sanitization block as it appears at every call site of the source:
if the text contains an opening marker, strip all four markers by literal
replacement; otherwise return the text unchanged. -/
def sanitize (t : Text) : Text := if sanitizeGuard t then removeMarkers t else t

/-! ### Line splitting (app.py lines 337, 683) -/

/-- Python `t.split('\n')`. -/
def pySplitNl (t : Text) : List Text :=
  t.foldr
    (fun c acc =>
      if c = '\n' then [] :: acc
      else
        match acc with
        | [] => [[c]]
        | h :: tl => (c :: h) :: tl)
    [[]]

/-- Characters stripped by Python `str.strip()` (the ASCII whitespace
subset; the responses manipulated by the source contain no exotic
Unicode spaces). -/
def isSpaceChar (c : Char) : Bool :=
  c = ' ' || c = '\t' || c = '\n' || c = '\r' || c = Char.ofNat 11 || c = Char.ofNat 12

/-- Python `t.strip()`. -/
def pyStrip (t : Text) : Text :=
  ((t.dropWhile isSpaceChar).reverse.dropWhile isSpaceChar).reverse

/-- The list comprehension used for title and keyword lists:
split on newlines, strip each line, keep the non-empty ones. -/
def splitLines (t : Text) : List Text :=
  ((pySplitNl t).map pyStrip).filter (fun l => !l.isEmpty)

/-! ### JSON-object extraction (app.py lines 423-427, 631-633) -/

/-- The opening-brace character, written by code point to keep braces out
of string literals. -/
def lbraceChar : Char := Char.ofNat 123

/-- The closing-brace character. -/
def rbraceChar : Char := Char.ofNat 125

/-- Python `text.find(lbrace)`: index of the first opening brace
(meaningful when one is present). -/
def jsonStart (t : Text) : Nat := t.indexOf lbraceChar

/-- Python `text.rfind(rbrace)`: index of the last closing brace
(meaningful when one is present). -/
def jsonLast (t : Text) : Nat := t.length - 1 - t.reverse.indexOf rbraceChar

/-- The brace-scanning extraction of the source: when the text contains
both an opening and a closing brace, slice from the first opening brace
to the last closing brace inclusive; otherwise the text is returned
unchanged (the source has no else-branch). -/
def extractJsonObject (t : Text) : Text :=
  if lbraceChar ∈ t ∧ rbraceChar ∈ t then
    (t.take (jsonLast t + 1)).drop (jsonStart t)
  else t

/-- Modelled from the spec, for comparison with the source function:
section 4.2 of the spec states that extraction "fails with ExtractionError
if either is absent", which the source does not do. -/
def extractJsonObjectSpec (t : Text) : Except String Text :=
  if lbraceChar ∈ t ∧ rbraceChar ∈ t then
    Except.ok ((t.take (jsonLast t + 1)).drop (jsonStart t))
  else Except.error "ExtractionError"

/-! ### Data model (spec section 3, shapes used by app.py) -/

/-- The `meta` record of a generated article structure. -/
structure MetaInfo where
  title : Text
  keyword : Text
  target_audience : Text
  word_count : Nat
deriving DecidableEq

/-- One section record of a generated article structure. -/
structure OutlineSection where
  heading : Text
  subheadings : List Text
  keywords : List Text
  content_brief : Text
deriving DecidableEq

/-- A generated article structure. -/
structure ArticleStructure where
  meta : MetaInfo
  introduction : Text
  sections : List OutlineSection
  conclusion : Text
deriving DecidableEq

/-- The seven-metric SEO score record. -/
structure SeoScore where
  keyword_density : Int
  title_optimization : Int
  headings : Int
  internal_links : Int
  content_quality : Int
  readability : Int
  overall_score : Int
deriving DecidableEq

/-- The all-zero score returned on every failure path of the SEO analysis
(app.py lines 619, 643). -/
def zeroScore : SeoScore := ⟨0, 0, 0, 0, 0, 0, 0⟩

/-- The session state of the application (app.py lines 84-117).  The
initial empty structure dict is modelled by `emptyStructure` and the
initial empty score dict by `none`. -/
structure AppState where
  step : Nat
  keyword : Text
  titles : List Text
  selected_title : Text
  article_structure : ArticleStructure
  article : Text
  edited_article : Text
  seo_score : Option SeoScore
  related_keywords : List Text
  generating_titles : Bool
  generating_structure : Bool
  generating_article : Bool
  current_section : Nat
  total_sections : Nat
  section_contents : List (Text × Text)
  progress : Rat

/-- Model of the initial empty structure dict. -/
def emptyStructure : ArticleStructure := ⟨⟨[], [], [], 0⟩, [], [], []⟩

/-- The session defaults installed at app start (app.py lines 84-117). -/
def initState : AppState :=
  { step := 1, keyword := [], titles := [], selected_title := [],
    article_structure := emptyStructure, article := [], edited_article := [],
    seo_score := none, related_keywords := [], generating_titles := false,
    generating_structure := false, generating_article := false,
    current_section := 0, total_sections := 0, section_contents := [],
    progress := 0 }

/-- Python dict assignment `m[k] = v` on an insertion-ordered dict
modelled as an association list. -/
def dictInsert (m : List (Text × Text)) (k v : Text) : List (Text × Text) :=
  if m.any (fun p => p.1 = k) then
    m.map (fun p => if p.1 = k then (k, v) else p)
  else m ++ [(k, v)]

/-! ### Title and related-keyword generation (app.py lines 280-346, 646-692) -/

/-- `generate_titles` (app.py lines 280-346).  The oracle argument is the
response of the generation service: `none` collapses the uninitialized
client, the empty-content response and a raised exception, all of which
return the empty list; a returned text is sanitized and split into
stripped non-empty lines.  No truncation to five entries is performed. -/
def generate_titles (resp : Option Text) : List Text :=
  match resp with
  | none => []
  | some t => splitLines (sanitize t)

/-- `suggest_related_keywords` (app.py lines 646-692), identical response
handling to `generate_titles`; no truncation to ten entries. -/
def suggest_related_keywords (resp : Option Text) : List Text :=
  match resp with
  | none => []
  | some t => splitLines (sanitize t)

/-- `process_title_generation` (app.py lines 141-177): stores the title
list and related keywords in session state and advances to step 2 only
when the title list is non-empty. -/
def process_title_generation (s : AppState) (titleResp relatedResp : Option Text) :
    AppState :=
  let s1 := { s with generating_titles := true }
  let titles := generate_titles titleResp
  let s2 := { s1 with titles := titles }
  let s3 := { s2 with related_keywords := suggest_related_keywords relatedResp }
  let s4 := { s3 with generating_titles := false }
  if titles.isEmpty then s4 else { s4 with step := 2 }

/-! ### Article structure generation (app.py lines 180-203, 348-446) -/

/-- The hard-coded fallback structure returned by both failure paths of
`generate_article_structure` (app.py lines 406-411 and 441-446).  All
strings are the Japanese literals of the source. -/
def fallback_structure (title keyword : Text) : ArticleStructure :=
  { meta := { title := title, keyword := keyword,
              target_audience := txt "一般読者", word_count := 1500 },
    introduction := txt "導入部",
    sections := [{ heading := txt "セクション1", subheadings := [],
                   keywords := [keyword], content_brief := txt "内容の説明" }],
    conclusion := txt "結論部" }

/-- `generate_article_structure` (app.py lines 348-446).  `resp = none`
collapses the empty-content response and a raised exception; on a
returned text the source sanitizes, extracts the JSON object and decodes
it with `json.loads`, modelled by the `parse` oracle whose `none` result
stands for a decoding exception.  Every failure yields the fallback. -/
def generate_article_structure (title keyword : Text) (resp : Option Text)
    (parse : Text → Option ArticleStructure) : ArticleStructure :=
  match resp with
  | none => fallback_structure title keyword
  | some t =>
    match parse (extractJsonObject (sanitize t)) with
    | none => fallback_structure title keyword
    | some st => st

/-- `process_structure_generation` (app.py lines 180-203): stores the
generated structure and unconditionally advances to step 3. -/
def process_structure_generation (s : AppState) (resp : Option Text)
    (parse : Text → Option ArticleStructure) : AppState :=
  let s1 := { s with generating_structure := true }
  let struc := generate_article_structure s.selected_title s.keyword resp parse
  { s1 with article_structure := struc,
            total_sections := struc.sections.length,
            current_section := 0,
            section_contents := [],
            generating_structure := false,
            step := 3 }

/-! ### Article part generation (app.py lines 448-571) -/

/-- The part identifier of the introduction. -/
def introKey : Text := txt "introduction"

/-- The part identifier of the conclusion. -/
def conclKey : Text := txt "conclusion"

/-- The part identifier of the 1-based section `n`, Python
`f"section_i"` with `i = n`. -/
def sectionName (n : Nat) : Text := txt "section_" ++ (Nat.repr n).data

/-- Placeholder returned for a failed introduction (app.py lines 543, 567). -/
def intro_fallback : Text :=
  txt "## はじめに\n\nこのブログ記事では、重要なトピックについて解説します。"

/-- Placeholder returned for a failed conclusion (app.py lines 545, 569). -/
def conclusion_fallback : Text :=
  txt "## まとめ\n\nこの記事の要点をまとめました。"

/-- Placeholder returned for a failed section with index `i`, embedding
the 1-based section number (app.py lines 547, 571). -/
def section_fallback (i : Nat) : Text :=
  txt "## セクション " ++ (Nat.repr (i + 1)).data ++
    txt "\n\nこのセクションでは重要な情報を提供します。"

/-- The result of one part generation given the fallback text of the
part and the service response: a failed response yields the fallback,
a returned text is sanitized (app.py lines 540-560 together with the
except-handler 561-571, which produce the same placeholder). -/
def partOutput (fb : Text) (resp : Option Text) : Text :=
  match resp with
  | none => fb
  | some t => sanitize t

/-- `generate_article_part` (app.py lines 448-571).  The result is `none`
exactly when the function raises: that happens only when a section part
is requested without a section index, because the `section_index + 1`
inside the except-handler then raises a second exception that escapes.
For an out-of-range integer index the IndexError of the section lookup is
caught and the section placeholder is returned.  `resp = none` collapses
the empty-content response and a raised service exception, which produce
the same placeholder per part type. -/
def generate_article_part (title keyword : Text) (struc : ArticleStructure)
    (part_type : Text) (section_index : Option Nat) (resp : Option Text) :
    Option Text :=
  if part_type = introKey then
    some (partOutput intro_fallback resp)
  else if part_type = conclKey then
    some (partOutput conclusion_fallback resp)
  else
    match section_index with
    | none => none
    | some i =>
      if i < struc.sections.length then
        some (partOutput (section_fallback i) resp)
      else
        some (section_fallback i)

/-! ### Article generation and assembly (app.py lines 206-277) -/

/-- The separator appended after the heading, the introduction and every
section body. -/
def nl2 : Text := txt "\n\n"

/-- The article assembly performed by `process_article_generation`:
the accumulator starts as the title heading plus the introduction, each
section body is appended followed by the separator, and the conclusion is
appended last with no trailing separator (app.py lines 222, 228, 243, 257). -/
def assembleArticle (title intro : Text) (secs : List Text) (concl : Text) : Text :=
  secs.foldl (fun acc c => acc ++ c ++ nl2) (txt "# " ++ title ++ nl2 ++ intro ++ nl2)
    ++ concl

/-- The sequential for-loop of app.py lines 235-251: generate the parts
`section_(i+1)` for the `n` indices starting at `i`, failing if any part
generation raises. -/
def genSectionsAux (title keyword : Text) (struc : ArticleStructure)
    (secResp : Nat → Option Text) : Nat → Nat → Option (List Text)
  | _, 0 => some []
  | i, n + 1 =>
    match generate_article_part title keyword struc (sectionName (i + 1)) (some i)
        (secResp i) with
    | none => none
    | some c =>
      match genSectionsAux title keyword struc secResp (i + 1) n with
      | none => none
      | some rest => some (c :: rest)

/-- The progress fraction reported after section `i` of `n`
(app.py line 247), in exact rational arithmetic. -/
def sectionProgress (n i : Nat) : Rat :=
  (1 : Rat) / 10 + ((8 : Rat) / 10) * ((i : Rat) + 1) / (n : Rat)

/-! ### SEO analysis (app.py lines 573-643) -/

/-- Template text of the SEO analysis prompt before the keyword
(app.py lines 578-581). -/
def seoPromptPre : Text :=
  txt "\n        以下の記事とキーワードに基づいて、SEO分析を行ってください。\n        \n        キーワード："

/-- Template text of the SEO analysis prompt between the keyword and the
truncated article (app.py lines 581-584). -/
def seoPromptMid : Text := txt "\n        \n        記事：\n        "

/-- Template text of the SEO analysis prompt after the truncated article
(app.py lines 584-597), braces written as escapes. -/
def seoPromptPost : Text :=
  txt "...\n        \n        以下の項目について分析し、それぞれ0-100のスコアを付けてください：\n        1. キーワード密度\n        2. タイトルの最適化\n        3. 見出しの使用\n        4. 内部リンクの可能性\n        5. コンテンツの品質\n        6. 読みやすさ\n        7. 総合SEOスコア\n        \n        JSONフォーマットで結果を返してください。例：\n        \x7b\"keyword_density\": 85, \"title_optimization\": 90, \"headings\": 80, \"internal_links\": 70, \"content_quality\": 85, \"readability\": 90, \"overall_score\": 83\x7d\n        "

/-- The SEO analysis prompt (app.py lines 578-597): the article is
truncated to its first 3000 characters before being embedded. -/
def buildScorePrompt (article keyword : Text) : Text :=
  seoPromptPre ++ keyword ++ seoPromptMid ++ article.take 3000 ++ seoPromptPost

/-- `analyze_seo` (app.py lines 573-643).  The `respond` oracle maps the
prompt actually sent to the service response (`none` collapsing empty
content and raised exceptions); the `parse` oracle models `json.loads`.
Every failure path returns the all-zero score; the function is total, so
nothing escapes this boundary. -/
def analyze_seo (article keyword : Text) (respond : Text → Option Text)
    (parse : Text → Option SeoScore) : SeoScore :=
  match respond (buildScorePrompt article keyword) with
  | none => zeroScore
  | some t =>
    match parse (extractJsonObject (sanitize (pyStrip t))) with
    | none => zeroScore
    | some sc => sc

/-- `process_article_generation` (app.py lines 206-277): generates the
introduction, each section in order and the conclusion, assembles the
article, runs the SEO analysis, and advances to step 4.  The second
component of the result is the sequence of fractions passed to the
progress bar: 0.1 after the introduction, the per-section fractions, and
1.0 after the conclusion.  The result is `none` if a part generation
raises, which cannot happen on these call sites. -/
def process_article_generation (s : AppState) (introResp : Option Text)
    (secResp : Nat → Option Text) (conclResp : Option Text)
    (seoRespond : Text → Option Text) (seoParse : Text → Option SeoScore) :
    Option (AppState × List Rat) :=
  let s0 := { s with generating_article := true }
  let title := s.selected_title
  let keyword := s.keyword
  let struc := s.article_structure
  match generate_article_part title keyword struc introKey none introResp with
  | none => none
  | some introduction =>
    let n := struc.sections.length
    match genSectionsAux title keyword struc secResp 0 n with
    | none => none
    | some secs =>
      match generate_article_part title keyword struc conclKey none conclResp with
      | none => none
      | some conclusion =>
        let full := assembleArticle title introduction secs conclusion
        let contents0 := dictInsert s0.section_contents introKey introduction
        let contents1 := ((List.range n).zip secs).foldl
          (fun m p => dictInsert m (sectionName (p.1 + 1)) p.2) contents0
        let contents2 := dictInsert contents1 conclKey conclusion
        let seo := analyze_seo full keyword seoRespond seoParse
        some
          ({ s0 with
              section_contents := contents2,
              current_section := if n = 0 then s0.current_section else n,
              progress := if n = 0 then s0.progress else sectionProgress n (n - 1),
              article := full,
              edited_article := full,
              seo_score := some seo,
              generating_article := false,
              step := 4 },
            (1 : Rat) / 10 :: (List.range n).map (sectionProgress n) ++ [1])

/-! ### Concrete fixtures used to instantiate the theorems -/

/-- A concrete three-section structure. -/
def demoStructure : ArticleStructure :=
  { meta := { title := txt "T", keyword := txt "K",
              target_audience := txt "aud", word_count := 100 },
    introduction := txt "i",
    sections := [{ heading := txt "h1", subheadings := [], keywords := [],
                   content_brief := txt "b1" },
                 { heading := txt "h2", subheadings := [], keywords := [],
                   content_brief := txt "b2" },
                 { heading := txt "h3", subheadings := [], keywords := [],
                   content_brief := txt "b3" }],
    conclusion := txt "c" }

/-- A session state about to generate an article with no sections. -/
def demoState0 : AppState :=
  { initState with selected_title := txt "T",
                   article_structure := emptyStructure }

/-- A session state about to generate an article with three sections. -/
def demoState3 : AppState :=
  { initState with selected_title := txt "T",
                   keyword := txt "K",
                   article_structure := demoStructure }

/-! ## Helper lemmas -/

/-- Text without an opening marker passes through sanitization unchanged. -/
theorem sanitize_eq_self_of_guard_false (t : Text) (h : sanitizeGuard t = false) :
    sanitize t = t := by
  simp [sanitize, h]

/-- Lines kept by the list comprehension are at most the split lines. -/
theorem splitLines_length_le (u : Text) :
    (splitLines u).length ≤ (pySplitNl u).length := by
  calc (splitLines u).length ≤ ((pySplitNl u).map pyStrip).length :=
        List.length_filter_le _ _
    _ = (pySplitNl u).length := List.length_map _ _

/-- Every line kept by the list comprehension is non-empty. -/
theorem splitLines_ne_nil (u : Text) : ∀ l ∈ splitLines u, l ≠ [] := by
  intro l hl
  have h := List.of_mem_filter hl
  simpa using h

/-! ## Claims -/

/-- C1: for every non-empty keyword, the title-generation transition either
produces a non-empty title list and advances the step from 1 to 2, or
produces an empty list and leaves the step at 1; it never reaches the
selection state with zero candidates. -/
theorem C1_title_transition (s : AppState) (titleResp relatedResp : Option Text)
    (hstep : s.step = 1) (hkw : s.keyword ≠ []) :
    ((process_title_generation s titleResp relatedResp).titles ≠ [] ∧
      (process_title_generation s titleResp relatedResp).step = 2) ∨
    ((process_title_generation s titleResp relatedResp).titles = [] ∧
      (process_title_generation s titleResp relatedResp).step = 1) := by
  by_cases h : (generate_titles titleResp).isEmpty
  · right
    constructor
    · simp [process_title_generation, h]
      exact List.isEmpty_iff.mp h
    · simp [process_title_generation, h, hstep]
  · left
    constructor
    · simp [process_title_generation, h]
      simpa [List.isEmpty_iff] using h
    · simp [process_title_generation, h]

/-- Witness for C1 at a concrete state and concrete responses. -/
theorem C1_title_transition_witness :
    ((process_title_generation { initState with keyword := txt "K" }
        (some (txt "A\nB")) none).titles ≠ [] ∧
      (process_title_generation { initState with keyword := txt "K" }
        (some (txt "A\nB")) none).step = 2) ∨
    ((process_title_generation { initState with keyword := txt "K" }
        (some (txt "A\nB")) none).titles = [] ∧
      (process_title_generation { initState with keyword := txt "K" }
        (some (txt "A\nB")) none).step = 1) :=
  C1_title_transition { initState with keyword := txt "K" }
    (some (txt "A\nB")) none (by decide) (by decide)

/-- C2 counterexample: the fallback strings of the source are the Japanese
literals, not the English strings asserted by the claim. -/
theorem C2_fallback_strings_counterexample :
    (generate_article_structure (txt "T") (txt "K") none
        (fun _ => none)).sections.map (fun sec => sec.heading) =
      [txt "セクション1"] ∧
    txt "セクション1" ≠ txt "Section 1" ∧
    (generate_article_structure (txt "T") (txt "K") none
        (fun _ => none)).meta.target_audience ≠ txt "general audience" ∧
    (generate_article_structure (txt "T") (txt "K") none
        (fun _ => none)).sections.map (fun sec => sec.content_brief) ≠
      [txt "content description"] := by
  decide

/-- C2 amended: on every structure-generation failure (service failure or
empty response, and JSON decoding failure alike) the deterministic
one-section fallback is returned — target audience 一般読者, word count
1500, one section with heading セクション1, brief 内容の説明 and keywords
equal to the singleton keyword — and the controller still advances the
step to 3. -/
theorem C2_structure_fallback (s : AppState) (resp : Option Text)
    (parse : Text → Option ArticleStructure)
    (hfail : resp = none ∨
      ∃ t, resp = some t ∧ parse (extractJsonObject (sanitize t)) = none) :
    (process_structure_generation s resp parse).step = 3 ∧
    (process_structure_generation s resp parse).article_structure =
      fallback_structure s.selected_title s.keyword ∧
    (process_structure_generation s resp parse).article_structure.sections.map
      (fun sec => sec.heading) = [txt "セクション1"] ∧
    (process_structure_generation s resp parse).article_structure.meta.target_audience =
      txt "一般読者" ∧
    (process_structure_generation s resp parse).article_structure.meta.word_count =
      1500 ∧
    (process_structure_generation s resp parse).article_structure.sections.map
      (fun sec => sec.keywords) = [[s.keyword]] ∧
    (process_structure_generation s resp parse).article_structure.sections.map
      (fun sec => sec.content_brief) = [txt "内容の説明"] := by
  have hgen : generate_article_structure s.selected_title s.keyword resp parse =
      fallback_structure s.selected_title s.keyword := by
    rcases hfail with h | ⟨t, ht, hp⟩
    · simp [generate_article_structure, h]
    · simp [generate_article_structure, ht, hp]
  refine ⟨?_, ?_, ?_, ?_, ?_, ?_, ?_⟩ <;>
    simp [process_structure_generation, hgen, fallback_structure]

/-- Witness for C2 at a concrete state with a failing decoder. -/
theorem C2_structure_fallback_witness :
    (process_structure_generation demoState3 (some (txt "not json"))
        (fun _ => none)).step = 3 ∧
    (process_structure_generation demoState3 (some (txt "not json"))
        (fun _ => none)).article_structure =
      fallback_structure demoState3.selected_title demoState3.keyword ∧
    (process_structure_generation demoState3 (some (txt "not json"))
        (fun _ => none)).article_structure.sections.map (fun sec => sec.heading) =
      [txt "セクション1"] ∧
    (process_structure_generation demoState3 (some (txt "not json"))
        (fun _ => none)).article_structure.meta.target_audience = txt "一般読者" ∧
    (process_structure_generation demoState3 (some (txt "not json"))
        (fun _ => none)).article_structure.meta.word_count = 1500 ∧
    (process_structure_generation demoState3 (some (txt "not json"))
        (fun _ => none)).article_structure.sections.map (fun sec => sec.keywords) =
      [[demoState3.keyword]] ∧
    (process_structure_generation demoState3 (some (txt "not json"))
        (fun _ => none)).article_structure.sections.map
      (fun sec => sec.content_brief) = [txt "内容の説明"] :=
  C2_structure_fallback demoState3 (some (txt "not json")) (fun _ => none)
    (Or.inr ⟨txt "not json", rfl, rfl⟩)

/-- C3 counterexample: a single replacement pass can splice two halves of a
marker together, so sanitization is not idempotent and one application does
not remove every marker occurrence. -/
theorem C3_sanitize_not_idempotent_counterexample :
    sanitize (sanitize (txt "<search<search_reminders>_reminders>")) ≠
      sanitize (txt "<search<search_reminders>_reminders>") ∧
    sanitize (txt "<search<search_reminders>_reminders>") = marker1 := by
  decide

/-- C3 amended: sanitization is idempotent on every text whose sanitized
result contains neither opening marker (unrestricted idempotence fails
because literal sequential replacement can splice new marker occurrences,
and texts with only closing markers are returned unchanged). -/
theorem C3_sanitize_conditional_idempotent (t : Text)
    (h1 : textContains marker1 (sanitize t) = false)
    (h3 : textContains marker3 (sanitize t) = false) :
    sanitize (sanitize t) = sanitize t := by
  apply sanitize_eq_self_of_guard_false
  simp [sanitizeGuard, h1, h3]

/-- Witness for C3 at a concrete text containing an opening marker. -/
theorem C3_sanitize_conditional_idempotent_witness :
    sanitize (sanitize (txt "hello<search_reminders>world")) =
      sanitize (txt "hello<search_reminders>world") :=
  C3_sanitize_conditional_idempotent (txt "hello<search_reminders>world")
    (by decide) (by decide)

/-- C5 counterexample: for an out-of-range section index the part
generation succeeds with the templated placeholder instead of failing. -/
theorem C5_out_of_range_placeholder_counterexample :
    generate_article_part (txt "T") (txt "K") demoStructure (txt "section_6")
        (some 5) (some (txt "body")) =
      some (txt "## セクション 6\n\nこのセクションでは重要な情報を提供します。") := by
  decide

/-- C5 amended: a section part without a section index raises (the
except-handler itself fails while formatting the placeholder), but for an
integer index out of range the lookup error is caught and the function
succeeds with the templated section placeholder. -/
theorem C5_section_index_behavior (title keyword : Text)
    (struc : ArticleStructure) (part_type : Text) (i : Nat) (resp : Option Text)
    (hni : part_type ≠ introKey) (hnc : part_type ≠ conclKey) :
    generate_article_part title keyword struc part_type none resp = none ∧
    (struc.sections.length ≤ i →
      generate_article_part title keyword struc part_type (some i) resp =
        some (section_fallback i)) := by
  constructor
  · simp [generate_article_part, hni, hnc]
  · intro h
    simp [generate_article_part, hni, hnc, Nat.not_lt.mpr h]

/-- Witness for C5 at a concrete structure and index. -/
theorem C5_section_index_behavior_witness :
    generate_article_part (txt "T") (txt "K") demoStructure (txt "section_9")
        none (some (txt "r")) = none ∧
    generate_article_part (txt "T") (txt "K") demoStructure (txt "section_9")
        (some 8) (some (txt "r")) = some (section_fallback 8) :=
  ⟨(C5_section_index_behavior (txt "T") (txt "K") demoStructure (txt "section_9")
      8 (some (txt "r")) (by decide) (by decide)).1,
   (C5_section_index_behavior (txt "T") (txt "K") demoStructure (txt "section_9")
      8 (some (txt "r")) (by decide) (by decide)).2 (by decide)⟩

/-- C8: the SEO evaluation depends only on the first 3000 characters of
the article (that prefix is all that is embedded in the request), and on
every failure — no response or failed JSON decoding — it returns the
all-zero score record; the function is total, so nothing escapes this
boundary. -/
theorem C8_seo_truncation_and_failure (a b k : Text)
    (respond : Text → Option Text) (parse : Text → Option SeoScore) :
    (a.take 3000 = b.take 3000 →
      analyze_seo a k respond parse = analyze_seo b k respond parse) ∧
    (respond (buildScorePrompt a k) = none →
      analyze_seo a k respond parse = zeroScore) ∧
    (∀ r, respond (buildScorePrompt a k) = some r →
      parse (extractJsonObject (sanitize (pyStrip r))) = none →
      analyze_seo a k respond parse = zeroScore) := by
  refine ⟨?_, ?_, ?_⟩
  · intro h
    have hp : buildScorePrompt a k = buildScorePrompt b k := by
      simp [buildScorePrompt, h]
    simp [analyze_seo, hp]
  · intro h
    simp [analyze_seo, h]
  · intro r hr hp
    simp [analyze_seo, hr, hp]

/-- Witness for C8 at a concrete article with a failing service. -/
theorem C8_seo_truncation_and_failure_witness :
    analyze_seo (txt "article text") (txt "kw") (fun _ => none)
      (fun _ => none) = zeroScore :=
  (C8_seo_truncation_and_failure (txt "article text") (txt "article text")
      (txt "kw") (fun _ => none) (fun _ => none)).2.1 rfl

/-- C9 counterexample: the parsers do not truncate — a six-line response
yields six titles and an eleven-line response yields eleven related
keywords. -/
theorem C9_no_truncation_counterexample :
    5 < (generate_titles (some (txt "t1\nt2\nt3\nt4\nt5\nt6"))).length ∧
    10 < (suggest_related_keywords
        (some (txt "k1\nk2\nk3\nk4\nk5\nk6\nk7\nk8\nk9\nk10\nk11"))).length := by
  decide

/-- C9 amended: the parsed title and related-keyword lists consist of the
non-empty trimmed lines of the sanitized response — bounded only by the
number of split lines, with every entry non-empty; no cap of 5 or 10 is
enforced (the limits appear only in the prompts). -/
theorem C9_parsed_lists_are_lines (t : Text) :
    ((generate_titles (some t)).length ≤ (pySplitNl (sanitize t)).length ∧
      ∀ l ∈ generate_titles (some t), l ≠ []) ∧
    ((suggest_related_keywords (some t)).length ≤
        (pySplitNl (sanitize t)).length ∧
      ∀ l ∈ suggest_related_keywords (some t), l ≠ []) :=
  ⟨⟨splitLines_length_le _, splitLines_ne_nil _⟩,
   ⟨splitLines_length_le _, splitLines_ne_nil _⟩⟩

/-- Witness for C9 at a concrete response. -/
theorem C9_parsed_lists_are_lines_witness :
    (generate_titles (some (txt "A\nB"))).length ≤
      (pySplitNl (sanitize (txt "A\nB"))).length ∧
    txt "A" ≠ ([] : Text) :=
  ⟨(C9_parsed_lists_are_lines (txt "A\nB")).1.1,
   (C9_parsed_lists_are_lines (txt "A\nB")).1.2 (txt "A") (by decide)⟩

/-- C10: marker removal runs only when the response contains an opening
marker; a text containing only closing markers is returned unchanged. -/
theorem C10_no_opening_marker_unchanged (t : Text)
    (h1 : textContains marker1 t = false)
    (h3 : textContains marker3 t = false) :
    sanitize t = t := by
  apply sanitize_eq_self_of_guard_false
  simp [sanitizeGuard, h1, h3]

/-- Witness for C10 at a text that contains a closing marker and no
opening marker: it passes through unchanged, closing marker included. -/
theorem C10_no_opening_marker_unchanged_witness :
    sanitize (txt "a</search_reminders>b") = txt "a</search_reminders>b" ∧
    textContains marker2 (txt "a</search_reminders>b") = true :=
  ⟨C10_no_opening_marker_unchanged (txt "a</search_reminders>b")
      (by decide) (by decide),
   by decide⟩

/-! ## Extraction lemmas for C4 -/

/-- The first occurrence of a character splits the list into a prefix free
of it, the character, and a remainder, with the prefix length equal to the
index of the first occurrence. -/
theorem indexOf_decomp {c : Char} {t : Text} (h : c ∈ t) :
    ∃ pre post, t = pre ++ c :: post ∧ c ∉ pre ∧
      pre.length = List.indexOf c t := by
  induction t with
  | nil => cases h
  | cons a rest ih =>
    by_cases hac : a = c
    · subst hac
      exact ⟨[], rest, rfl, by simp, by simp⟩
    · have hcr : c ∈ rest := by
        rcases List.mem_cons.mp h with h1 | h1
        · exact absurd h1.symm hac
        · exact h1
      obtain ⟨pre, post, heq, hnp, hlen⟩ := ih hcr
      refine ⟨a :: pre, post, by simp [heq], ?_, ?_⟩
      · intro hmem
        rcases List.mem_cons.mp hmem with h1 | h1
        · exact hac h1.symm
        · exact hnp h1
      · simp [List.indexOf_cons, hac, hlen]

/-- When both braces occur and the first opening brace is not after the
last closing brace, the extracted text is the inclusive slice between
them: it starts with an opening brace, ends with a closing brace, no
opening brace precedes it and no closing brace follows it. -/
theorem extract_decomp (t : Text) (hl : lbraceChar ∈ t) (hr : rbraceChar ∈ t)
    (hle : jsonStart t ≤ jsonLast t) :
    ∃ pre post, t = pre ++ extractJsonObject t ++ post ∧
      lbraceChar ∉ pre ∧ rbraceChar ∉ post ∧
      (extractJsonObject t).head? = some lbraceChar ∧
      (extractJsonObject t).getLast? = some rbraceChar := by
  obtain ⟨preL, postL, hteq, hnpre, hlenL⟩ := indexOf_decomp hl
  obtain ⟨preR, postR, hreq, hnR, hlenR⟩ :=
    indexOf_decomp (List.mem_reverse.mpr hr)
  have htAB : t = postR.reverse ++ rbraceChar :: preR.reverse := by
    have h0 := congrArg List.reverse hreq
    simpa [List.reverse_append] using h0
  have hBlen : preR.reverse.length = List.indexOf rbraceChar t.reverse := by
    simpa using hlenR
  have htlen : t.length = postR.reverse.length + (preR.reverse.length + 1) := by
    conv_lhs => rw [htAB]
    simp
  have hA : postR.reverse.length = jsonLast t := by
    show postR.reverse.length = t.length - 1 - List.indexOf rbraceChar t.reverse
    omega
  have hsdef : preL.length = jsonStart t := hlenL
  have hsle : preL.length ≤ postR.reverse.length := by omega
  have hmid : extractJsonObject t =
      (t.take (jsonLast t + 1)).drop (jsonStart t) := by
    simp [extractJsonObject, hl, hr]
  rw [← hA, ← hsdef] at hmid
  have htake : t.take (postR.reverse.length + 1) =
      postR.reverse ++ [rbraceChar] := by
    conv_lhs => rw [htAB]
    rw [List.take_append_eq_append_take, List.take_of_length_le (by omega)]
    have h2 : postR.reverse.length + 1 - postR.reverse.length = 1 := by omega
    rw [h2]
    simp
  rw [htake] at hmid
  have hdrop : extractJsonObject t =
      postR.reverse.drop preL.length ++ [rbraceChar] := by
    rw [hmid, List.drop_append_eq_append_drop]
    have h3 : preL.length - postR.reverse.length = 0 := by omega
    rw [h3]
    simp
  have hlast : (extractJsonObject t).getLast? = some rbraceChar := by
    rw [hdrop]
    exact List.getLast?_concat _
  have hpreL_take : t.take preL.length = preL := by
    conv_lhs => rw [hteq]
    exact List.take_left _ _
  have hA_take : postR.reverse.take preL.length = preL := by
    have h8 : t.take preL.length = postR.reverse.take preL.length := by
      conv_lhs => rw [htAB]
      rw [List.take_append_eq_append_take]
      have h4 : preL.length - postR.reverse.length = 0 := by omega
      rw [h4]
      simp only [List.take_zero, List.append_nil]
    rw [← h8, hpreL_take]
  have hdropt : lbraceChar :: postL =
      postR.reverse.drop preL.length ++ rbraceChar :: preR.reverse := by
    have h5 : t.drop preL.length = lbraceChar :: postL := by
      conv_lhs => rw [hteq]
      exact List.drop_left _ _
    have h6 : t.drop preL.length =
        postR.reverse.drop preL.length ++ rbraceChar :: preR.reverse := by
      conv_lhs => rw [htAB]
      rw [List.drop_append_eq_append_drop]
      have h7 : preL.length - postR.reverse.length = 0 := by omega
      rw [h7]
      simp
    rw [← h5, h6]
  have hhead : (extractJsonObject t).head? = some lbraceChar := by
    rw [hdrop]
    cases hcase : postR.reverse.drop preL.length with
    | nil =>
      rw [hcase] at hdropt
      simp at hdropt
      exact absurd hdropt.1 (by decide)
    | cons x xs =>
      rw [hcase] at hdropt
      simp at hdropt
      simp [hdropt.1.symm]
  refine ⟨preL, preR.reverse, ?_, hnpre, ?_, hhead, hlast⟩
  · rw [hdrop]
    calc t = postR.reverse ++ rbraceChar :: preR.reverse := htAB
      _ = (postR.reverse.take preL.length ++ postR.reverse.drop preL.length) ++
            rbraceChar :: preR.reverse := by rw [List.take_append_drop]
      _ = preL ++ (postR.reverse.drop preL.length ++ [rbraceChar]) ++
            preR.reverse := by
            rw [hA_take]
            simp [List.append_assoc]
  · intro hmem
    exact hnR (List.mem_reverse.mp hmem)

/-- C4 counterexample: on an input without braces the source returns the
input unchanged — no ExtractionError exists in the code — while the
spec-modelled extractor fails. -/
theorem C4_no_error_counterexample :
    extractJsonObject (txt "no json here") = txt "no json here" ∧
    extractJsonObjectSpec (txt "no json here") =
      Except.error "ExtractionError" :=
  ⟨by decide, rfl⟩

/-- C4 amended: when both braces are present (first opening brace not
after the last closing brace) the extraction returns the inclusive
substring from the first opening to the last closing brace — in
particular the claimed concrete example holds — but when either brace is
absent the text is returned unchanged instead of failing. -/
theorem C4_extract_first_to_last :
    (∀ t : Text, ¬ (lbraceChar ∈ t ∧ rbraceChar ∈ t) →
      extractJsonObject t = t) ∧
    (∀ t : Text, lbraceChar ∈ t → rbraceChar ∈ t →
      jsonStart t ≤ jsonLast t →
      ∃ pre post, t = pre ++ extractJsonObject t ++ post ∧
        lbraceChar ∉ pre ∧ rbraceChar ∉ post ∧
        (extractJsonObject t).head? = some lbraceChar ∧
        (extractJsonObject t).getLast? = some rbraceChar) ∧
    extractJsonObject (txt "noise\x7b\"a\":1\x7dmore noise") =
      txt "\x7b\"a\":1\x7d" := by
  refine ⟨?_, ?_, by decide⟩
  · intro t h
    simp [extractJsonObject, h]
  · intro t hl hr hle
    exact extract_decomp t hl hr hle

/-- Witness for C4 at a concrete brace-free input. -/
theorem C4_extract_first_to_last_witness :
    extractJsonObject (txt "xyz") = txt "xyz" :=
  C4_extract_first_to_last.1 (txt "xyz") (by decide)

/-! ## Pipeline-run lemmas for C6 and C7 -/

/-- A section part identifier is never the introduction identifier. -/
theorem sectionName_ne_introKey (n : Nat) : sectionName n ≠ introKey := by
  intro h
  have h1 : (sectionName n).head? = some 's' := rfl
  rw [h] at h1
  exact absurd h1 (by decide)

/-- A section part identifier is never the conclusion identifier. -/
theorem sectionName_ne_conclKey (n : Nat) : sectionName n ≠ conclKey := by
  intro h
  have h1 : (sectionName n).head? = some 's' := rfl
  rw [h] at h1
  exact absurd h1 (by decide)

/-- Introduction parts always generate successfully. -/
theorem generate_article_part_intro (title keyword : Text)
    (struc : ArticleStructure) (idx : Option Nat) (resp : Option Text) :
    generate_article_part title keyword struc introKey idx resp =
      some (partOutput intro_fallback resp) := by
  simp [generate_article_part]

/-- Conclusion parts always generate successfully. -/
theorem generate_article_part_concl (title keyword : Text)
    (struc : ArticleStructure) (idx : Option Nat) (resp : Option Text) :
    generate_article_part title keyword struc conclKey idx resp =
      some (partOutput conclusion_fallback resp) := by
  have h : conclKey ≠ introKey := by decide
  simp [generate_article_part, h]

/-- Section parts with an in-range index always generate successfully. -/
theorem generate_article_part_section (title keyword : Text)
    (struc : ArticleStructure) (i : Nat) (resp : Option Text)
    (hi : i < struc.sections.length) :
    generate_article_part title keyword struc (sectionName (i + 1)) (some i)
        resp = some (partOutput (section_fallback i) resp) := by
  simp [generate_article_part, sectionName_ne_introKey, sectionName_ne_conclKey,
    hi]

/-- The section loop succeeds and yields the per-index part outputs. -/
theorem genSectionsAux_eq (title keyword : Text) (struc : ArticleStructure)
    (secResp : Nat → Option Text) :
    ∀ n i, i + n ≤ struc.sections.length →
      genSectionsAux title keyword struc secResp i n =
        some ((List.range' i n).map
          (fun j => partOutput (section_fallback j) (secResp j))) := by
  intro n
  induction n with
  | zero =>
    intro i _
    simp [genSectionsAux]
  | succ m ih =>
    intro i hle
    rw [genSectionsAux,
      generate_article_part_section title keyword struc i (secResp i) (by omega),
      ih (i + 1) (by omega), List.range'_succ]
    simp

/-- The progress trace of every article-generation run: 0.1 after the
introduction, the per-section fractions in order, 1.0 at the end. -/
theorem process_article_generation_eq (s : AppState) (introResp : Option Text)
    (secResp : Nat → Option Text) (conclResp : Option Text)
    (seoRespond : Text → Option Text) (seoParse : Text → Option SeoScore) :
    (process_article_generation s introResp secResp conclResp seoRespond
        seoParse).map (fun r => r.2) =
      some ((1 : Rat) / 10 ::
        (List.range s.article_structure.sections.length).map
          (sectionProgress s.article_structure.sections.length) ++ [1]) := by
  have hsec := genSectionsAux_eq s.selected_title s.keyword s.article_structure
    secResp s.article_structure.sections.length 0 (by omega)
  simp only [process_article_generation, generate_article_part_intro,
    generate_article_part_concl, hsec]
  rfl

/-- Consecutive section fractions strictly increase. -/
theorem sectionProgress_strict_mono (N i j : Nat) (hij : i < j) (hN : 0 < N) :
    sectionProgress N i < sectionProgress N j := by
  unfold sectionProgress
  have hN' : (0 : Rat) < (N : Rat) := by exact_mod_cast hN
  apply add_lt_add_left
  rw [div_lt_div_iff_of_pos_right hN']
  have h1 : ((i : Rat) + 1) < ((j : Rat) + 1) := by exact_mod_cast Nat.succ_lt_succ hij
  nlinarith

/-- Every section fraction lies in the unit interval. -/
theorem sectionProgress_nonneg_le_one (N i : Nat) (hi : i < N) :
    0 ≤ sectionProgress N i ∧ sectionProgress N i ≤ 1 := by
  have hN' : (0 : Rat) < (N : Rat) := by
    exact_mod_cast Nat.pos_of_ne_zero (by omega)
  constructor
  · unfold sectionProgress
    positivity
  · unfold sectionProgress
    have h1 : ((i : Rat) + 1) / (N : Rat) ≤ 1 := by
      rw [div_le_one hN']
      exact_mod_cast hi
    have h2 : (8 : Rat) / 10 * ((i : Rat) + 1) / (N : Rat) ≤ 8 / 10 := by
      rw [mul_div_assoc]
      calc (8 : Rat) / 10 * (((i : Rat) + 1) / (N : Rat)) ≤ 8 / 10 * 1 := by
            apply mul_le_mul_of_nonneg_left h1 (by norm_num)
        _ = 8 / 10 := by ring
    linarith

/-- The fraction after the last of the sections is 0.9. -/
theorem sectionProgress_last (m : Nat) : sectionProgress (m + 1) m = 9 / 10 := by
  unfold sectionProgress
  have hm : ((m : Rat) + 1) ≠ 0 := by positivity
  push_cast
  field_simp
  ring

/-- The fraction after the first section exceeds 0.1. -/
theorem sectionProgress_zero_gt (N : Nat) (hN : 0 < N) :
    (1 : Rat) / 10 < sectionProgress N 0 := by
  unfold sectionProgress
  have hN' : (0 : Rat) < (N : Rat) := by exact_mod_cast hN
  have h1 : (0 : Rat) < 8 / 10 * ((0 : Nat) + 1 : Rat) / (N : Rat) := by positivity
  push_cast at h1 ⊢
  linarith

/-- The full progress trace strictly increases. -/
theorem chain_progress (N : Nat) :
    List.Chain' (· < ·)
      ((1 : Rat) / 10 :: (List.range N).map (sectionProgress N) ++ [1]) := by
  cases N with
  | zero =>
    have h0 : ((1 : Rat) / 10 :: (List.range 0).map (sectionProgress 0) ++ [1]) =
        [(1 : Rat) / 10, 1] := rfl
    rw [h0, List.chain'_pair]
    norm_num
  | succ m =>
    rw [List.chain'_append]
    refine ⟨?_, List.chain'_singleton _, ?_⟩
    · rw [List.chain'_cons']
      constructor
      · intro y hy
        rw [List.head?_map, List.range_succ_eq_map] at hy
        have hy' : sectionProgress (m + 1) 0 = y := by simpa using hy
        rw [← hy']
        exact sectionProgress_zero_gt (m + 1) (by omega)
      · rw [List.chain'_map, List.chain'_range_succ]
        intro k hk
        exact sectionProgress_strict_mono (m + 1) k (k + 1) (by omega) (by omega)
    · intro x hx y hy
      have hgl : (((1 : Rat) / 10) ::
          (List.range (m + 1)).map (sectionProgress (m + 1))).getLast? =
          some (sectionProgress (m + 1) m) := by
        rw [List.range_succ, List.map_append, ← List.cons_append]
        exact List.getLast?_concat _
      rw [hgl, Option.mem_def, Option.some_inj] at hx
      simp only [List.head?_cons, Option.mem_def, Option.some_inj] at hy
      rw [← hx, ← hy, sectionProgress_last]
      norm_num

/-- Every value of the progress trace lies in the unit interval. -/
theorem progress_mem_bounds (N : Nat) (x : Rat)
    (hx : x ∈ (1 : Rat) / 10 ::
      (List.range N).map (sectionProgress N) ++ [1]) :
    0 ≤ x ∧ x ≤ 1 := by
  rcases List.mem_append.mp hx with h | h
  · rcases List.mem_cons.mp h with h1 | h1
    · subst h1
      norm_num
    · obtain ⟨i, hi, hfi⟩ := List.mem_map.mp h1
      rw [← hfi]
      exact sectionProgress_nonneg_le_one N i (List.mem_range.mp hi)
  · simp only [List.mem_singleton] at h
    subst h
    norm_num

/-- The accumulating loop over section bodies equals the flat
concatenation of the bodies each followed by the separator. -/
theorem foldl_append_sections (secs : List Text) (acc : Text) :
    secs.foldl (fun a c => a ++ c ++ nl2) acc =
      acc ++ (secs.map (fun c => c ++ nl2)).flatten := by
  induction secs generalizing acc with
  | nil => simp
  | cons c rest ih =>
    rw [List.foldl_cons, ih]
    simp [List.append_assoc]

/-- C6: the assembled article is exactly the title heading, the
introduction, each section body each followed by a blank-line separator,
and the conclusion with no trailing separator; for zero sections with
title T the pipeline produces exactly the claimed text. -/
theorem C6_article_assembly :
    (∀ (title intr concl : Text) (secs : List Text),
      assembleArticle title intr secs concl =
        txt "# " ++ title ++ nl2 ++ intr ++ nl2 ++
          (secs.map (fun c => c ++ nl2)).flatten ++ concl) ∧
    (process_article_generation demoState0 (some (txt "INTRO")) (fun _ => none)
        (some (txt "CONCLUSION")) (fun _ => none) (fun _ => none)).map
      (fun r => r.1.article) = some (txt "# T\n\nINTRO\n\nCONCLUSION") := by
  constructor
  · intro title intr concl secs
    rw [assembleArticle, foldl_append_sections]
  · decide

/-- C7: the progress fractions reported during article generation are 0.1
after the introduction, 0.1 + 0.8*(i+1)/N after section i+1 of N, and 1.0
after the conclusion; the sequence strictly increases, stays in the unit
interval, and for N = 3 equals the claimed list (modelled in exact
rational arithmetic in place of floating point). -/
theorem C7_progress_fractions (s : AppState) (iR : Option Text)
    (sR : Nat → Option Text) (cR : Option Text) (rd : Text → Option Text)
    (p : Text → Option SeoScore) (tr : List Rat)
    (h : (process_article_generation s iR sR cR rd p).map (fun r => r.2) =
      some tr) :
    List.Chain' (· < ·) tr ∧ (∀ x ∈ tr, 0 ≤ x ∧ x ≤ 1) ∧
    (s.article_structure.sections.length = 3 →
      tr = [(1 : Rat) / 10, (1 : Rat) / 10 + (8 : Rat) / 10 / 3,
            (1 : Rat) / 10 + (16 : Rat) / 10 / 3, (9 : Rat) / 10, 1]) := by
  rw [process_article_generation_eq] at h
  injection h with h
  subst h
  refine ⟨chain_progress _, fun x hx => progress_mem_bounds _ x hx, ?_⟩
  intro h3
  rw [h3]
  have hr3 : List.range 3 = [0, 1, 2] := rfl
  rw [hr3]
  simp only [List.map_cons, List.map_nil]
  norm_num [sectionProgress]

/-- Witness for C7 at a concrete three-section run, with the trace
hypothesis discharged by the trace lemma. -/
theorem C7_progress_fractions_witness :
    List.Chain' (· < ·) ((1 : Rat) / 10 ::
      (List.range demoState3.article_structure.sections.length).map
        (sectionProgress demoState3.article_structure.sections.length) ++
      [1]) :=
  (C7_progress_fractions demoState3 (some (txt "INTRO"))
      (fun _ => some (txt "S")) (some (txt "C")) (fun _ => none)
      (fun _ => none) _
      (process_article_generation_eq demoState3 (some (txt "INTRO"))
        (fun _ => some (txt "S")) (some (txt "C")) (fun _ => none)
        (fun _ => none))).1

end SeoApp
